import Mathlib

/-!
Shallow embedding of the `PhysicsSystem` class of this repository
(the physics module: body/collider registry, semi-implicit Euler
integration, AABB collision detection with an enter/stay/exit
collision matrix, and the two collision resolvers).

Modelling conventions:
- JavaScript numbers are modelled as exact rationals (`ℚ`); every
  arithmetic operation of the source is a rational operation here.
- A JS object field that createBody/createCollider never sets is not a
  field of the corresponding record; where the source reads such a field
  (e.g. `collider.isStatic`, which is `undefined`), the embedding models
  the JS truthiness of `undefined` as `false`, and where the source would
  throw a `TypeError` (reading `.x` of an `undefined` vector) the
  embedding returns `none`.
- A missing option (`options.mass` absent) is `Option.none`; JS `||`
  defaulting replaces any falsy supplied value (`0` for numbers, `""`
  for strings, `false` for booleans) by the default as the source does.
- Collider event callbacks are modelled by presence flags plus an
  invocation log: the embedding records which callback was invoked with
  which body, it does not model callback side effects (callbacks are
  external code).
- `performance.now()` (the `lastStepTime` debug field) is wall-clock
  time and is not part of the modelled state.
-/

/-- A 3-component vector of exact rationals, modelling `THREE.Vector3`. -/
structure Vec3 where
  x : ℚ
  y : ℚ
  z : ℚ
deriving DecidableEq

/-- A physics body exactly as built by `createBody`: identity, kinematic
state, physical properties, shape tag and box dimensions.  The embedded
`applyForce`/`applyImpulse` closures carry no state and are modelled as
functions below.  A missing/unsupplied id is the empty string (JS
`undefined` and `""` are both falsy in the id check). -/
structure Body where
  id : String
  position : Vec3
  velocity : Vec3
  acceleration : Vec3
  mass : ℚ
  restitution : ℚ
  friction : ℚ
  isStatic : Bool
  shape : String
  dimensions : Vec3
deriving DecidableEq

/-- A collider exactly as built by `createCollider`.  Note which fields a
collider does NOT have: no velocity, no mass, no restitution, no
friction, no `isStatic` flag.  The six optional callbacks are modelled
by presence flags (the source stores either a function or `null`). -/
structure Collider where
  id : String
  position : Vec3
  shape : String
  dimensions : Vec3
  isTrigger : Bool
  hasOnCollisionEnter : Bool
  hasOnCollisionStay : Bool
  hasOnCollisionExit : Bool
  hasOnTriggerEnter : Bool
  hasOnTriggerStay : Bool
  hasOnTriggerExit : Bool
deriving DecidableEq

/-- The second argument of `_checkCollision`, `_handleCollisionEnter`,
`_handleCollisionStay` and the resolvers is either another body (from
the body-vs-body loop) or a collider (from the body-vs-collider loop). -/
inductive Other where
  | body : Body → Other
  | collider : Collider → Other
deriving DecidableEq

namespace Other

/-- `o.position` — both bodies and colliders have a position. -/
def position : Other → Vec3
  | .body b => b.position
  | .collider c => c.position

/-- `o.dimensions` — both bodies and colliders have dimensions. -/
def dimensions : Other → Vec3
  | .body b => b.dimensions
  | .collider c => c.dimensions

/-- `o.shape` — both bodies and colliders have a shape tag. -/
def shape : Other → String
  | .body b => b.shape
  | .collider c => c.shape

/-- JS truthiness of `o.isStatic`: a collider has no `isStatic` field,
so the read yields `undefined`, which is falsy. -/
def isStaticJS : Other → Bool
  | .body b => b.isStatic
  | .collider _ => false

/-- JS truthiness of `o.isTrigger`: a body has no `isTrigger` field,
so the read yields `undefined`, which is falsy. -/
def isTriggerJS : Other → Bool
  | .body _ => false
  | .collider c => c.isTrigger

/-- `o.friction`: a collider has no friction field (`undefined`), a body
has a rational one.  The source only uses it in the comparison
`staticObj.friction > 0`, and `undefined > 0` is `false` in JS. -/
def frictionPosJS : Other → Bool
  | .body b => decide (0 < b.friction)
  | .collider _ => false

end Other

/-- `body.friction` read on an `Other` that is known to be used as the
static counterpart in `_resolveCollision`; the friction multiplier of the
source uses `staticObj.friction` only when `frictionPosJS` held, and in
that case the counterpart is a body with a real friction value. -/
def Other.frictionVal : Other → ℚ
  | .body b => b.friction
  | .collider _ => 0

/-- One recorded callback invocation: which collider, which callback
slot, which body was passed as the sole argument. -/
inductive CallbackSlot where
  | collisionEnter
  | collisionStay
  | collisionExit
  | triggerEnter
  | triggerStay
  | triggerExit
deriving DecidableEq

/-- An entry of the callback invocation log. -/
structure CallEvent where
  colliderId : String
  slot : CallbackSlot
  bodyId : String
deriving DecidableEq

/-- The collision matrix: insertion-ordered rows keyed by subject body
id, each row an insertion-ordered list of (other id, boolean) entries.
This models a JS object-of-objects with its key semantics (unique keys,
insertion order). -/
abbrev CollisionMatrix : Type := List (String × List (String × Bool))

namespace CollisionMatrix

/-- Update the first binding of `k` in an association list, or append a
new binding — JS `obj[k] = v`. -/
def setEntry (k : String) (v : Bool) : List (String × Bool) → List (String × Bool)
  | [] => [(k, v)]
  | (k', v') :: rest =>
    if k' = k then (k, v) :: rest else (k', v') :: setEntry k v rest

/-- Look a key up in a row — JS `row[k]`, `none` for a missing key
(`undefined`). -/
def getEntry (k : String) : List (String × Bool) → Option Bool
  | [] => none
  | (k', v') :: rest => if k' = k then some v' else getEntry k rest

/-- JS `delete row[k]`. -/
def delEntry (k : String) : List (String × Bool) → List (String × Bool)
  | [] => []
  | (k', v') :: rest =>
    if k' = k then rest else (k', v') :: delEntry k rest

/-- `if (!this.collisionMatrix[id]) this.collisionMatrix[id] = {}` —
an existing row (even an empty object) is truthy and kept. -/
def ensureRow (id : String) (m : CollisionMatrix) : CollisionMatrix :=
  match m with
  | [] => [(id, [])]
  | (k, row) :: rest =>
    if k = id then (k, row) :: rest else (k, row) :: ensureRow id rest

/-- JS `this.collisionMatrix[a]` — the row for `a`, if present. -/
def getRow (a : String) : CollisionMatrix → Option (List (String × Bool))
  | [] => none
  | (k, row) :: rest => if k = a then some row else getRow a rest

/-- JS truthiness of `this.collisionMatrix[a][b]` as used for
`wasColliding`: `undefined` (missing row or missing entry) is falsy. -/
def getFlag (a b : String) (m : CollisionMatrix) : Bool :=
  match m.getRow a with
  | none => false
  | some row => (getEntry b row).getD false

/-- `this.collisionMatrix[a][b] = v` performed after `ensureRow a`. -/
def setFlag (a b : String) (v : Bool) (m : CollisionMatrix) : CollisionMatrix :=
  (ensureRow a m).map fun (k, row) => if k = a then (k, setEntry b v row) else (k, row)

/-- JS `delete this.collisionMatrix[id]`. -/
def delRow (id : String) : CollisionMatrix → CollisionMatrix
  | [] => []
  | (k, row) :: rest =>
    if k = id then rest else (k, row) :: delRow id rest

/-- `Object.keys(this.collisionMatrix).forEach(id => delete this.collisionMatrix[id][body.id])`. -/
def delColumn (id : String) (m : CollisionMatrix) : CollisionMatrix :=
  m.map fun (k, row) => (k, delEntry id row)

end CollisionMatrix

/-- The `PhysicsSystem` instance state (minus the wall-clock
`lastStepTime` debug field, see the module comment). -/
structure PhysicsSystem where
  gravity : Vec3
  timeScale : ℚ
  bodies : List Body
  colliders : List Collider
  collisionMatrix : CollisionMatrix
  debugEnabled : Bool
deriving DecidableEq

/-- Options for the `PhysicsSystem` constructor.  `none` is an absent
property; a supplied falsy value (`0`, `false`) is replaced by the
default through JS `||` exactly as a missing one is. -/
structure SystemOptions where
  gravity : Option Vec3
  timeScale : Option ℚ
  debugEnabled : Option Bool
deriving DecidableEq

/-- JS `options.f || default` for a numeric option: both an absent
property and a supplied `0` (the only falsy rational) yield the default. -/
def numOr (v : Option ℚ) (d : ℚ) : ℚ :=
  match v with
  | none => d
  | some q => if q = 0 then d else q

/-- JS `options.f || default` for a string option: both an absent
property and a supplied `""` yield the default. -/
def strOr (v : Option String) (d : String) : String :=
  match v with
  | none => d
  | some s => if s = "" then d else s

/-- JS `options.f || false` for a boolean option. -/
def boolOr (v : Option Bool) (d : Bool) : Bool :=
  match v with
  | none => d
  | some b => b || d

/-- JS `options.f || obj` for an object-valued option: any supplied
object (even a zero vector) is truthy, only absence yields the default. -/
def objOr {α : Type} (v : Option α) (d : α) : α :=
  match v with
  | none => d
  | some a => a

/-- The `PhysicsSystem` constructor: gravity defaults to `(0, -9.8, 0)`,
`timeScale` to `1.0` (note `timeScale: 0` is falsy and also becomes
`1.0`), collections start empty, the collision matrix starts empty. -/
def PhysicsSystem.create (options : SystemOptions) : PhysicsSystem :=
  { gravity := objOr options.gravity ⟨0, -98/10, 0⟩
    timeScale := numOr options.timeScale 1
    bodies := []
    colliders := []
    collisionMatrix := []
    debugEnabled := boolOr options.debugEnabled false }

/-- `addBody`: assign a generated id `body_${this.bodies.length}` if the
body's id is falsy, then push.  Returns the updated system and the body
as registered (the source mutates the argument and returns it). -/
def addBody (s : PhysicsSystem) (body : Body) : PhysicsSystem × Body :=
  let b := if body.id = "" then { body with id := "body_" ++ Nat.repr s.bodies.length } else body
  ({ s with bodies := s.bodies ++ [b] }, b)

/-- `removeBody`: erase the first entry equal to `body` from the body
collection; if found, delete the collision-matrix row keyed by its id
and the column keyed by its id from every remaining row.  Silent no-op
when the body is not present.  (JS `indexOf` uses object identity;
record equality models it for the record values at hand.) -/
def removeBody (s : PhysicsSystem) (body : Body) : PhysicsSystem :=
  if body ∈ s.bodies then
    { s with
      bodies := s.bodies.erase body
      collisionMatrix :=
        CollisionMatrix.delColumn body.id (CollisionMatrix.delRow body.id s.collisionMatrix) }
  else s

/-- `addCollider`: assign a generated id `collider_${this.colliders.length}`
if the collider's id is falsy, then push. -/
def addCollider (s : PhysicsSystem) (collider : Collider) : PhysicsSystem × Collider :=
  let c := if collider.id = "" then
    { collider with id := "collider_" ++ Nat.repr s.colliders.length } else collider
  ({ s with colliders := s.colliders ++ [c] }, c)

/-- `removeCollider`: erase the first matching entry; the collision
matrix is NOT touched (colliders are not purged from it). -/
def removeCollider (s : PhysicsSystem) (collider : Collider) : PhysicsSystem :=
  if collider ∈ s.colliders then
    { s with colliders := s.colliders.erase collider }
  else s

/-- Options accepted by `createBody`; `none` models an absent property. -/
structure BodyOptions where
  id : Option String
  position : Option Vec3
  velocity : Option Vec3
  acceleration : Option Vec3
  mass : Option ℚ
  restitution : Option ℚ
  friction : Option ℚ
  isStatic : Option Bool
  shape : Option String
  dimensions : Option Vec3
deriving DecidableEq

/-- `createBody`: fill defaults through JS `||` (so falsy supplied
values are replaced too), then register through `addBody`.  The id
defaulting happens at object construction, before the `addBody` push,
from the same `this.bodies.length`. -/
def createBody (s : PhysicsSystem) (options : BodyOptions) : PhysicsSystem × Body :=
  let body : Body :=
    { id := strOr options.id ("body_" ++ Nat.repr s.bodies.length)
      position := objOr options.position ⟨0, 0, 0⟩
      velocity := objOr options.velocity ⟨0, 0, 0⟩
      acceleration := objOr options.acceleration ⟨0, 0, 0⟩
      mass := numOr options.mass 1
      restitution := numOr options.restitution (3/10)
      friction := numOr options.friction (5/10)
      isStatic := boolOr options.isStatic false
      shape := strOr options.shape "box"
      dimensions := objOr options.dimensions ⟨1, 1, 1⟩ }
  addBody s body

/-- Options accepted by `createCollider`. -/
structure ColliderOptions where
  id : Option String
  position : Option Vec3
  shape : Option String
  dimensions : Option Vec3
  isTrigger : Option Bool
  onCollisionEnter : Option Bool
  onCollisionStay : Option Bool
  onCollisionExit : Option Bool
  onTriggerEnter : Option Bool
  onTriggerStay : Option Bool
  onTriggerExit : Option Bool
deriving DecidableEq

/-- `createCollider`: fill defaults (callbacks default to `null`,
modelled as absent), then register through `addCollider`. -/
def createCollider (s : PhysicsSystem) (options : ColliderOptions) : PhysicsSystem × Collider :=
  let collider : Collider :=
    { id := strOr options.id ("collider_" ++ Nat.repr s.colliders.length)
      position := objOr options.position ⟨0, 0, 0⟩
      shape := strOr options.shape "box"
      dimensions := objOr options.dimensions ⟨1, 1, 1⟩
      isTrigger := boolOr options.isTrigger false
      hasOnCollisionEnter := (options.onCollisionEnter).getD false
      hasOnCollisionStay := (options.onCollisionStay).getD false
      hasOnCollisionExit := (options.onCollisionExit).getD false
      hasOnTriggerEnter := (options.onTriggerEnter).getD false
      hasOnTriggerStay := (options.onTriggerStay).getD false
      hasOnTriggerExit := (options.onTriggerExit).getD false }
  addCollider s collider

/-- `applyForce` on a body: no-op if static, else add `force / mass` to
acceleration. -/
def applyForce (b : Body) (force : Vec3) : Body :=
  if b.isStatic then b
  else
    { b with acceleration :=
        ⟨b.acceleration.x + force.x / b.mass,
         b.acceleration.y + force.y / b.mass,
         b.acceleration.z + force.z / b.mass⟩ }

/-- `applyImpulse` on a body: no-op if static, else add `impulse / mass`
to velocity. -/
def applyImpulse (b : Body) (impulse : Vec3) : Body :=
  if b.isStatic then b
  else
    { b with velocity :=
        ⟨b.velocity.x + impulse.x / b.mass,
         b.velocity.y + impulse.y / b.mass,
         b.velocity.z + impulse.z / b.mass⟩ }

/-- `_checkCollision`: false unless both shapes are `"box"`, else the
AABB overlap test `|posA - posB| * 2 < dimA + dimB` on all three axes. -/
def _checkCollision (a : Body) (b : Other) : Bool :=
  if a.shape = "box" && b.shape = "box" then
    if |a.position.x - b.position.x| * 2 < a.dimensions.x + b.dimensions.x ∧
       |a.position.y - b.position.y| * 2 < a.dimensions.y + b.dimensions.y ∧
       |a.position.z - b.position.z| * 2 < a.dimensions.z + b.dimensions.z
    then true else false
  else false

/-- A coordinate axis, naming which branch of the axis-selection
`if`/`else if`/`else` chain of the resolvers was taken. -/
inductive Axis where
  | x
  | y
  | z
deriving DecidableEq

/-- The axis-selection chain shared verbatim by `_resolveCollision` and
`_resolveCollisionDynamic`:
`if (overlap.x < overlap.y && overlap.x < overlap.z) {x} else if (overlap.y < overlap.z) {y} else {z}`. -/
def selectAxis (overlap : Vec3) : Axis :=
  if overlap.x < overlap.y ∧ overlap.x < overlap.z then .x
  else if overlap.y < overlap.z then .y
  else .z

/-- The component of a vector along an axis. -/
def Vec3.along (v : Vec3) : Axis → ℚ
  | .x => v.x
  | .y => v.y
  | .z => v.z

/-- The per-axis penetration computed identically at the top of both
resolvers: `(dimA + dimB)/2 - |posA - posB|` per axis. -/
def overlapVec (posA dimA posB dimB : Vec3) : Vec3 :=
  ⟨(dimA.x + dimB.x) / 2 - |posA.x - posB.x|,
   (dimA.y + dimB.y) / 2 - |posA.y - posB.y|,
   (dimA.z + dimB.z) / 2 - |posA.z - posB.z|⟩

/-- `_resolveCollision`: push the body out of the static counterpart
along the branch-selected axis, reflect that axis' velocity scaled by
the body's restitution, then apply horizontal friction damping if both
frictions are positive. -/
def _resolveCollision (body : Body) (staticObj : Other) : Body :=
  let overlap := overlapVec body.position body.dimensions staticObj.position staticObj.dimensions
  let b1 :=
    match selectAxis overlap with
    | .x =>
      let direction : ℚ := if body.position.x < staticObj.position.x then -1 else 1
      { body with
        position := { body.position with x := body.position.x + direction * overlap.x }
        velocity := { body.velocity with x := -body.velocity.x * body.restitution } }
    | .y =>
      let direction : ℚ := if body.position.y < staticObj.position.y then -1 else 1
      { body with
        position := { body.position with y := body.position.y + direction * overlap.y }
        velocity := { body.velocity with y := -body.velocity.y * body.restitution } }
    | .z =>
      let direction : ℚ := if body.position.z < staticObj.position.z then -1 else 1
      { body with
        position := { body.position with z := body.position.z + direction * overlap.z }
        velocity := { body.velocity with z := -body.velocity.z * body.restitution } }
  if 0 < b1.friction ∧ staticObj.frictionPosJS = true then
    let combinedFriction := b1.friction * staticObj.frictionVal
    { b1 with
      velocity := { b1.velocity with
        x := b1.velocity.x * (1 - combinedFriction)
        z := b1.velocity.z * (1 - combinedFriction) } }
  else b1

/-- The nonnegative rational square root of a rational, when it exists.
Used only by `normalize`. -/
def ratSqrt (q : ℚ) : Option ℚ :=
  if q < 0 then none
  else
    let sn := Nat.sqrt q.num.toNat
    let sd := Nat.sqrt q.den
    if sn * sn = q.num.toNat ∧ sd * sd = q.den then some ((sn : ℚ) / (sd : ℚ)) else none

/-- The dot product of `THREE.Vector3.dot`. -/
def dot (a b : Vec3) : ℚ :=
  a.x * b.x + a.y * b.y + a.z * b.z

/-- `THREE.Vector3.normalize` divides by `length || 1`, so the zero
vector is left unchanged.  The real square root is irrational for most
rational inputs and has no exact image in `ℚ`; this embedding returns
the exact normalization whenever the squared length has a rational
square root and leaves the vector unscaled otherwise.  No theorem in
this file depends on the value produced in that fallback branch: the
momentum argument below holds for every normal vector whatsoever. -/
def Vec3.normalize (v : Vec3) : Vec3 :=
  match ratSqrt (dot v v) with
  | some len => if len = 0 then v else ⟨v.x / len, v.y / len, v.z / len⟩
  | none => v

/-- The body-vs-body core of `_resolveCollisionDynamic`: impulse along
the normalized center-to-center direction unless `velocityAlongNormal`
is positive, then positional separation along the branch-selected
minimum-overlap axis, half to each body. -/
def resolveDynamicPair (bodyA bodyB : Body) : Body × Body :=
  let relativeVelocity : Vec3 :=
    ⟨bodyA.velocity.x - bodyB.velocity.x,
     bodyA.velocity.y - bodyB.velocity.y,
     bodyA.velocity.z - bodyB.velocity.z⟩
  let normal := Vec3.normalize
    ⟨bodyB.position.x - bodyA.position.x,
     bodyB.position.y - bodyA.position.y,
     bodyB.position.z - bodyA.position.z⟩
  let velocityAlongNormal := dot relativeVelocity normal
  if 0 < velocityAlongNormal then (bodyA, bodyB)
  else
    let restitution := min bodyA.restitution bodyB.restitution
    let impulseStrength :=
      (-(1 + restitution) * velocityAlongNormal) / (1 / bodyA.mass + 1 / bodyB.mass)
    let impulse : Vec3 :=
      ⟨normal.x * impulseStrength, normal.y * impulseStrength, normal.z * impulseStrength⟩
    let a1 := { bodyA with velocity :=
      ⟨bodyA.velocity.x + impulse.x / bodyA.mass,
       bodyA.velocity.y + impulse.y / bodyA.mass,
       bodyA.velocity.z + impulse.z / bodyA.mass⟩ }
    let b1 := { bodyB with velocity :=
      ⟨bodyB.velocity.x - impulse.x / bodyB.mass,
       bodyB.velocity.y - impulse.y / bodyB.mass,
       bodyB.velocity.z - impulse.z / bodyB.mass⟩ }
    let overlap := overlapVec a1.position a1.dimensions b1.position b1.dimensions
    match selectAxis overlap with
    | .x =>
      let direction : ℚ := if a1.position.x < b1.position.x then -1 else 1
      let moveAmount := overlap.x / 2
      ({ a1 with position := { a1.position with x := a1.position.x + direction * moveAmount } },
       { b1 with position := { b1.position with x := b1.position.x - direction * moveAmount } })
    | .y =>
      let direction : ℚ := if a1.position.y < b1.position.y then -1 else 1
      let moveAmount := overlap.y / 2
      ({ a1 with position := { a1.position with y := a1.position.y + direction * moveAmount } },
       { b1 with position := { b1.position with y := b1.position.y - direction * moveAmount } })
    | .z =>
      let direction : ℚ := if a1.position.z < b1.position.z then -1 else 1
      let moveAmount := overlap.z / 2
      ({ a1 with position := { a1.position with z := a1.position.z + direction * moveAmount } },
       { b1 with position := { b1.position with z := b1.position.z - direction * moveAmount } })

/-- `_resolveCollisionDynamic(bodyA, bodyB)`: when the second argument
is a collider, the very first statement reads `bodyB.velocity.x` with
`bodyB.velocity === undefined`, a `TypeError`; the embedding returns
`none` for that crash.  On a body it returns the updated pair. -/
def _resolveCollisionDynamic (a : Body) (o : Other) : Option (Body × Body) :=
  match o with
  | .collider _ => none
  | .body b => some (resolveDynamicPair a b)

/-- `_handleCollisionEnter`: `if (b.isStatic || b.isTrigger)` route to
the static resolver (only the first argument is mutated), else to the
dynamic resolver (both mutated; `none` models its crash on a collider).
Returns the updated first body and, when the dynamic resolver ran, the
updated second body. -/
def _handleCollisionEnter (a : Body) (o : Other) : Option (Body × Option Body) :=
  if o.isStaticJS || o.isTriggerJS then some (_resolveCollision a o, none)
  else
    match _resolveCollisionDynamic a o with
    | none => none
    | some (a', b') => some (a', some b')

/-- `_handleCollisionStay`: identical dispatch to `_handleCollisionEnter`. -/
def _handleCollisionStay (a : Body) (o : Other) : Option (Body × Option Body) :=
  if o.isStaticJS || o.isTriggerJS then some (_resolveCollision a o, none)
  else
    match _resolveCollisionDynamic a o with
    | none => none
    | some (a', b') => some (a', some b')

/-- `_handleCollisionExit`: the source body is empty (`// Nothing to do
for now`). -/
def _handleCollisionExit (_a : Body) (_o : Other) : Unit := ()

/-- The classification of one pair's transition, read off the
`if (isColliding && !wasColliding) ... else if ...` chain of
`_checkCollisions`. -/
inductive TransitionEvent where
  | enter
  | stay
  | exitEv
  | nothing
deriving DecidableEq

/-- The transition chain of `_checkCollisions`, verbatim:
colliding now and not before is ENTER, colliding now and before is
STAY, not colliding now but before is EXIT, else no event. -/
def transitionEvent (wasColliding isColliding : Bool) : TransitionEvent :=
  if isColliding && !wasColliding then .enter
  else if isColliding && wasColliding then .stay
  else if !isColliding && wasColliding then .exitEv
  else .nothing

/-- The per-pair transition history: starting from a stored flag, feed
the per-frame overlap statuses through the collision matrix mechanism
(each frame reads the stored flag, emits `transitionEvent`, stores the
new status). -/
def eventTrace (stored : Bool) : List Bool → List TransitionEvent
  | [] => []
  | status :: rest => transitionEvent stored status :: eventTrace status rest

/-- The state threaded through one `_checkCollisions` pass: the system
plus the callback-invocation log. -/
structure PassState where
  sys : PhysicsSystem
  log : List CallEvent
deriving DecidableEq

/-- A fallible fold over loop indices: the loop body either updates the
state or raises (`none`, a thrown `TypeError` propagating out). -/
def optFold (f : ℕ → PassState → Option PassState) : List ℕ → PassState → Option PassState
  | [], st => some st
  | j :: rest, st =>
    match f j st with
    | none => none
    | some st' => optFold f rest st'

/-- The body of the inner body-vs-body loop of `_checkCollisions` for
outer index `i` and inner index `j`: skip `i = j`, ensure the matrix
row, read the previous flag, store the new one, then dispatch on the
transition (ENTER/STAY resolve and write the mutated bodies back at
their indices; EXIT calls the empty `_handleCollisionExit`). -/
def bodyPairStep (i j : ℕ) (st : PassState) : Option PassState :=
  if i = j then some st
  else
    match st.sys.bodies[i]?, st.sys.bodies[j]? with
    | some bodyA, some bodyB =>
      let m := CollisionMatrix.ensureRow bodyA.id st.sys.collisionMatrix
      let isColliding := _checkCollision bodyA (.body bodyB)
      let wasColliding := CollisionMatrix.getFlag bodyA.id bodyB.id m
      let m1 := CollisionMatrix.setFlag bodyA.id bodyB.id isColliding m
      let sys := { st.sys with collisionMatrix := m1 }
      match transitionEvent wasColliding isColliding with
      | .enter =>
        match _handleCollisionEnter bodyA (.body bodyB) with
        | none => none
        | some (a', ob') =>
          let bs := sys.bodies.set i a'
          let bs := match ob' with
            | none => bs
            | some b' => bs.set j b'
          some { st with sys := { sys with bodies := bs } }
      | .stay =>
        match _handleCollisionStay bodyA (.body bodyB) with
        | none => none
        | some (a', ob') =>
          let bs := sys.bodies.set i a'
          let bs := match ob' with
            | none => bs
            | some b' => bs.set j b'
          some { st with sys := { sys with bodies := bs } }
      | .exitEv =>
        let _ := _handleCollisionExit bodyA (.body bodyB)
        some { st with sys := sys }
      | .nothing => some { st with sys := sys }
    | _, _ => some st

/-- Append a callback invocation to the log when the collider has the
callback installed (`if (collider.onX) collider.onX(bodyA)`). -/
def logCall (present : Bool) (c : Collider) (slot : CallbackSlot) (b : Body)
    (log : List CallEvent) : List CallEvent :=
  if present then log ++ [⟨c.id, slot, b.id⟩] else log

/-- The body of the inner body-vs-collider loop of `_checkCollisions`
for outer index `i` and collider index `j`: matrix bookkeeping as in
the body loop, then the trigger/solid dispatch.  On ENTER/STAY against
a solid collider the source calls `_handleCollisionEnter`/`Stay` (which
routes a collider to the dynamic resolver and crashes there) before the
`onCollisionEnter/Stay` callback. -/
def colliderStep (i j : ℕ) (st : PassState) : Option PassState :=
  match st.sys.bodies[i]?, st.sys.colliders[j]? with
  | some bodyA, some collider =>
    let m := CollisionMatrix.ensureRow bodyA.id st.sys.collisionMatrix
    let isColliding := _checkCollision bodyA (.collider collider)
    let wasColliding := CollisionMatrix.getFlag bodyA.id collider.id m
    let m1 := CollisionMatrix.setFlag bodyA.id collider.id isColliding m
    let sys := { st.sys with collisionMatrix := m1 }
    match transitionEvent wasColliding isColliding with
    | .enter =>
      if collider.isTrigger then
        some ⟨sys, logCall collider.hasOnTriggerEnter collider .triggerEnter bodyA st.log⟩
      else
        match _handleCollisionEnter bodyA (.collider collider) with
        | none => none
        | some (a', _) =>
          some ⟨{ sys with bodies := sys.bodies.set i a' },
                logCall collider.hasOnCollisionEnter collider .collisionEnter bodyA st.log⟩
    | .stay =>
      if collider.isTrigger then
        some ⟨sys, logCall collider.hasOnTriggerStay collider .triggerStay bodyA st.log⟩
      else
        match _handleCollisionStay bodyA (.collider collider) with
        | none => none
        | some (a', _) =>
          some ⟨{ sys with bodies := sys.bodies.set i a' },
                logCall collider.hasOnCollisionStay collider .collisionStay bodyA st.log⟩
    | .exitEv =>
      if collider.isTrigger then
        some ⟨sys, logCall collider.hasOnTriggerExit collider .triggerExit bodyA st.log⟩
      else
        some ⟨sys, logCall collider.hasOnCollisionExit collider .collisionExit bodyA st.log⟩
    | .nothing => some ⟨sys, st.log⟩
  | _, _ => some st

/-- One iteration of the outer loop of `_checkCollisions`: skip static
subjects, then run the body-vs-body inner loop followed by the
body-vs-collider inner loop. -/
def outerStep (nBodies nColliders : ℕ) (i : ℕ) (st : PassState) : Option PassState :=
  match st.sys.bodies[i]? with
  | none => some st
  | some bodyA =>
    if bodyA.isStatic then some st
    else
      match optFold (bodyPairStep i) (List.range nBodies) st with
      | none => none
      | some st' => optFold (colliderStep i) (List.range nColliders) st'

/-- `_checkCollisions`: the full pass over all bodies. -/
def _checkCollisions (s : PhysicsSystem) : Option PassState :=
  optFold (outerStep s.bodies.length s.colliders.length) (List.range s.bodies.length) ⟨s, []⟩

/-- The per-body integration of `update`: skip static bodies; else add
gravity into acceleration, velocity `+=` acceleration `*` scaledDelta,
position `+=` the UPDATED velocity `*` scaledDelta, then reset
acceleration to zero. -/
def integrateBody (gravity : Vec3) (scaledDelta : ℚ) (body : Body) : Body :=
  if body.isStatic then body
  else
    let acc : Vec3 :=
      ⟨body.acceleration.x + gravity.x,
       body.acceleration.y + gravity.y,
       body.acceleration.z + gravity.z⟩
    let vel : Vec3 :=
      ⟨body.velocity.x + acc.x * scaledDelta,
       body.velocity.y + acc.y * scaledDelta,
       body.velocity.z + acc.z * scaledDelta⟩
    let pos : Vec3 :=
      ⟨body.position.x + vel.x * scaledDelta,
       body.position.y + vel.y * scaledDelta,
       body.position.z + vel.z * scaledDelta⟩
    { body with position := pos, velocity := vel, acceleration := ⟨0, 0, 0⟩ }

/-- `update(deltaTime)`: scale the delta; if `scaledDelta < 0.0001`
return with nothing changed and no callback invoked; else integrate
every body in collection order and run `_checkCollisions`.  The result
is the new system state and the callback log (`none` models the
`TypeError` thrown when a dynamic body overlaps a solid collider). -/
def update (s : PhysicsSystem) (deltaTime : ℚ) : Option (PhysicsSystem × List CallEvent) :=
  let scaledDelta := deltaTime * s.timeScale
  if scaledDelta < 1/10000 then some (s, [])
  else
    let s1 := { s with bodies := s.bodies.map (integrateBody s.gravity scaledDelta) }
    match _checkCollisions s1 with
    | none => none
    | some st => some (st.sys, st.log)

/-- `n` successive `update` calls with the same delta. -/
def updateN (deltaTime : ℚ) : ℕ → PhysicsSystem → Option PhysicsSystem
  | 0, s => some s
  | n + 1, s =>
    match update s deltaTime with
    | none => none
    | some (s', _) => updateN deltaTime n s'

/-- Successive `update` calls with the given deltas, in order. -/
def updateSeq : List ℚ → PhysicsSystem → Option PhysicsSystem
  | [], s => some s
  | dt :: rest, s =>
    match update s dt with
    | none => none
    | some (s', _) => updateSeq rest s'

/-- The numeric value of a decimal digit character, inverse to
`Nat.digitChar` on digits. -/
def digitVal (c : Char) : ℕ := c.toNat - '0'.toNat

/-- Decode a decimal digit string, inverse to `Nat.toDigits 10`. -/
def decodeDigits (l : List Char) : ℕ := l.foldl (fun a c => 10 * a + digitVal c) 0

/-- The generated-id scheme of `addBody`/`addCollider`: a fixed tag
followed by the decimal collection count. -/
def genId (tag : String) (k : ℕ) : String := tag ++ Nat.repr k

/-- A registry call that lets the caller supply a body/collider or
options, as in the sequences claim C2 quantifies over. -/
inductive RegOp where
  | addB : Body → RegOp
  | createB : BodyOptions → RegOp
  | addC : Collider → RegOp
  | createC : ColliderOptions → RegOp
deriving DecidableEq

/-- Whether a registry call supplies no id (absent or falsy). -/
def RegOp.noIdSupplied : RegOp → Bool
  | .addB b => b.id = ""
  | .createB o => o.id = none || o.id = some ""
  | .addC c => c.id = ""
  | .createC o => o.id = none || o.id = some ""

/-- Perform one registry call, keeping the system. -/
def applyRegOp (s : PhysicsSystem) : RegOp → PhysicsSystem
  | .addB b => (addBody s b).1
  | .createB o => (createBody s o).1
  | .addC c => (addCollider s c).1
  | .createC o => (createCollider s o).1

/-- Perform a sequence of registry calls in order. -/
def runOps : List RegOp → PhysicsSystem → PhysicsSystem
  | [], s => s
  | op :: rest, s => runOps rest (applyRegOp s op)

/-- Modelled from the amended claim C3 wording, for comparison with
`selectAxis`: the LAST axis in the order x, y, z attaining the minimum
per-axis penetration. -/
def lastMinAxis (o : Vec3) : Axis :=
  if o.z ≤ o.x ∧ o.z ≤ o.y then .z
  else if o.y ≤ o.x then .y
  else .x

/-- The representation invariant of a JS object-of-objects: keys are
unique at both levels (JS objects cannot hold a key twice). -/
def MatrixWF (m : CollisionMatrix) : Prop :=
  (m.map Prod.fst).Nodup ∧ ∀ r ∈ m, (r.2.map Prod.fst).Nodup

instance : DecidablePred MatrixWF := fun m => by
  unfold MatrixWF
  infer_instance

/-- "The bodies at static positions of `orig` are untouched in `cur`":
same length and every entry that is a static body in `orig` is present
unchanged at the same index of `cur`. -/
def StaticsIntact (orig cur : List Body) : Prop :=
  orig.length = cur.length ∧
    ∀ (i : ℕ) (b : Body), orig[i]? = some b → b.isStatic = true → cur[i]? = some b

/-- A system holding exactly one body, no colliders, an empty collision
matrix and `timeScale = 1`, as in the free-fall claim C4. -/
def singleBodySys (g : Vec3) (b : Body) : PhysicsSystem :=
  ⟨g, 1, [b], [], [], false⟩

/-- A body with every field supplied explicitly; the base for the
concrete witnesses below. -/
def mkBody (id : String) (pos vel : Vec3) (mass rest fric : ℚ) (isStatic : Bool)
    (dims : Vec3) : Body :=
  ⟨id, pos, vel, ⟨0, 0, 0⟩, mass, rest, fric, isStatic, "box", dims⟩

/-- Witness fixture: a dynamic unit box at the origin. -/
def wBodyA : Body := mkBody "A" ⟨0, 0, 0⟩ ⟨0, 0, 0⟩ 1 1 1 false ⟨1, 1, 1⟩

/-- Witness fixture: a solid (non-trigger) collider overlapping `wBodyA`. -/
def wSolidCollider : Collider :=
  ⟨"C", ⟨0, 0, 0⟩, "box", ⟨1, 1, 1⟩, false, false, false, false, false, false, false⟩

/-- Failing input of claim C1: a dynamic body overlapping a solid
collider. -/
def sysC1 : PhysicsSystem := ⟨⟨0, 0, 0⟩, 1, [wBodyA], [wSolidCollider], [], false⟩

/-- A body record carrying no id, as a caller hands to `addBody`. -/
def idlessBody : Body := mkBody "" ⟨0, 0, 0⟩ ⟨0, 0, 0⟩ 1 1 1 false ⟨1, 1, 1⟩

/-- The empty system the C2 scenarios start from. -/
def emptySys : PhysicsSystem := ⟨⟨0, -10, 0⟩, 1, [], [], [], false⟩

/-- Counterexample run for claim C2: add two id-less bodies, remove the
first, add a third id-less body. -/
def c2run : PhysicsSystem :=
  let r1 := addBody emptySys idlessBody
  let r2 := addBody r1.1 idlessBody
  let r3 := removeBody r2.1 r1.2
  (addBody r3 idlessBody).1

/-- Counterexample fixture for claim C3: the subject body, a unit cube
at the origin scaled to dimensions (2,2,2), frictionless. -/
def c3Body : Body := mkBody "P" ⟨0, 0, 0⟩ ⟨0, 0, 0⟩ 1 0 0 false ⟨2, 2, 2⟩

/-- Counterexample fixture for claim C3: the static counterpart placed
so the per-axis penetrations are x = 1, y = 1, z = 2 (an x/y tie). -/
def c3Static : Body := mkBody "Q" ⟨1, 1, 0⟩ ⟨0, 0, 0⟩ 1 0 0 true ⟨2, 2, 2⟩

/-- Witness fixture for claim C5: body A, mass 2, moving away from B
along -x (the source applies its impulse exactly when
`velocityAlongNormal <= 0`). -/
def c5BodyA : Body := mkBody "A" ⟨0, 0, 0⟩ ⟨-1, 0, 0⟩ 2 1 1 false ⟨2, 2, 2⟩

/-- Witness fixture for claim C5: body B, mass 3, at rest at x = 1. -/
def c5BodyB : Body := mkBody "B" ⟨1, 0, 0⟩ ⟨0, 0, 0⟩ 3 1 1 false ⟨2, 2, 2⟩

/-- Witness fixture for claim C6: a static body. -/
def c6Static : Body := mkBody "S" ⟨0, 2, 0⟩ ⟨0, 0, 0⟩ 1 1 1 true ⟨1, 1, 1⟩

/-- Witness system for claim C6: the static body alone (its `update`
leaves the whole state untouched, which makes the hypothesis of the
claim theorem directly checkable). -/
def sysC6 : PhysicsSystem := ⟨⟨0, -10, 0⟩, 1, [c6Static], [], [], false⟩

/-- Witness system for claim C8: a body in the collection and a matrix
holding its id both as a row key and as a column key. -/
def sysC8 : PhysicsSystem :=
  ⟨⟨0, -10, 0⟩, 1, [wBodyA],  [],
   [("A", [("B", true), ("C", false)]), ("B", [("A", true)]), ("C", [("A", false), ("B", true)])],
   false⟩

/-- A body absent from `sysC8`, for the no-op half of claim C8. -/
def c8Absent : Body := mkBody "Z" ⟨5, 5, 5⟩ ⟨0, 0, 0⟩ 1 1 1 false ⟨1, 1, 1⟩

/-- Witness fixture for claim C4: a free-falling body. -/
def c4Body : Body := mkBody "F" ⟨0, 5, 0⟩ ⟨0, 0, 0⟩ 1 0 0 false ⟨1, 1, 1⟩

/-- The ids a run of `n` id-less registrations produces: the tag
followed by 0, 1, …, n-1. -/
def idsSpec (tag : String) (n : ℕ) : List String := (List.range n).map (genId tag)

/-- A `BodyOptions` record supplying nothing. -/
def noneBodyOptions : BodyOptions :=
  ⟨none, none, none, none, none, none, none, none, none, none⟩

/-- A `ColliderOptions` record supplying nothing. -/
def noneColliderOptions : ColliderOptions :=
  ⟨none, none, none, none, none, none, none, none, none, none, none⟩

/-- A collider record carrying no id, as a caller hands to `addCollider`. -/
def idlessCollider : Collider :=
  ⟨"", ⟨0, 0, 0⟩, "box", ⟨1, 1, 1⟩, false, false, false, false, false, false, false⟩

/-- Witness call sequence for the amended claim C2: four id-less
registrations mixing all four entry points. -/
def c2ops : List RegOp :=
  [.addB idlessBody, .createB noneBodyOptions, .addC idlessCollider,
   .createC noneColliderOptions, .addB idlessBody]

/-- C1 (code bug): a non-static body overlapping a solid (non-trigger)
collider is NOT routed to the static resolver as the spec states.  A
collider has no `isStatic` field, so `b.isStatic || b.isTrigger` is
false in `_handleCollisionEnter` and the dynamic body-vs-body resolver
is invoked with the collider as second argument; its first statement
reads `collider.velocity.x` with `velocity === undefined` and throws a
TypeError (modelled as `none`), so neither resolution nor the
`onCollisionEnter` callback ever happens.  Evaluated at the failing
input: `wBodyA` overlapping `wSolidCollider`, `update(1)` throws. -/
theorem solid_collider_contact_crashes :
    Other.isStaticJS (.collider wSolidCollider) = false ∧
    Other.isTriggerJS (.collider wSolidCollider) = false ∧
    _handleCollisionEnter wBodyA (.collider wSolidCollider) = none ∧
    update sysC1 1 = none := by
  refine ⟨rfl, rfl, rfl, ?_⟩
  have h1 : sysC1.bodies = [wBodyA] := rfl
  have h2 : sysC1.colliders = [wSolidCollider] := rfl
  have h3 : sysC1.collisionMatrix = [] := rfl
  have h4 : wSolidCollider.isTrigger = false := rfl
  have h5 : _handleCollisionEnter wBodyA (.collider wSolidCollider) = none := rfl
  have hst : wBodyA.isStatic = false := rfl
  have hcc : _checkCollision wBodyA (.collider wSolidCollider) = true := by
    simp only [_checkCollision, wBodyA, wSolidCollider, mkBody, Other.shape,
      Other.position, Other.dimensions]
    norm_num
  have hstep : colliderStep 0 0 ⟨sysC1, []⟩ = none := by
    simp only [colliderStep, h1, h2, h3, List.getElem?_cons_zero,
      CollisionMatrix.ensureRow, CollisionMatrix.getFlag, CollisionMatrix.getRow,
      CollisionMatrix.getEntry, hcc, transitionEvent, Bool.not_false, Bool.and_self,
      eq_self_iff_true, if_true, Option.getD_none, Bool.not_true, Bool.and_false,
      Bool.false_and, Bool.true_and, if_false, h4, h5]
    rfl
  have hint : integrateBody sysC1.gravity (1 * sysC1.timeScale) wBodyA = wBodyA := by
    have hg : sysC1.gravity = ⟨0, 0, 0⟩ := rfl
    have ht : sysC1.timeScale = 1 := rfl
    rw [hg, ht]
    simp only [integrateBody, wBodyA, mkBody]
    norm_num
  have hchk : _checkCollisions sysC1 = none := by
    simp only [_checkCollisions, h1, h2, List.length_cons, List.length_nil,
      List.range_succ, List.range_zero, List.nil_append, optFold, outerStep,
      List.getElem?_cons_zero, hst, Bool.false_eq_true, if_false, bodyPairStep,
      eq_self_iff_true, if_true, hstep]
  show update sysC1 1 = none
  simp only [update]
  rw [if_neg (by norm_num [show sysC1.timeScale = 1 from rfl])]
  have hs1 : { sysC1 with bodies := sysC1.bodies.map (integrateBody sysC1.gravity (1 * sysC1.timeScale)) } = sysC1 := by
    rw [h1, List.map_cons, List.map_nil, hint]
    rfl
  rw [hs1, hchk]

/-- Counterexample to claim C2: generated ids DO collide with ids still
in the collection once `removeBody` is involved.  Adding two id-less
bodies (ids `body_0`, `body_1`), removing the first, then adding a third
id-less body generates `body_` + length = `body_1` again: the collection
holds two live bodies with the same id. -/
theorem generated_id_collides_after_removal :
    c2run.bodies.map Body.id = ["body_1", "body_1"] ∧
    ¬ (c2run.bodies.map Body.id).Nodup := by
  constructor
  · rfl
  · decide

theorem eventTrace_false_run (m : ℕ) (rest : List Bool) :
    eventTrace false (List.replicate m false ++ rest) =
      List.replicate m TransitionEvent.nothing ++ eventTrace false rest := by
  induction m with
  | zero => simp
  | succ n ih => simp [List.replicate_succ, eventTrace, transitionEvent, ih]

theorem eventTrace_true_run (k : ℕ) (rest : List Bool) :
    eventTrace true (List.replicate k true ++ rest) =
      List.replicate k TransitionEvent.stay ++ eventTrace true rest := by
  induction k with
  | zero => simp
  | succ n ih => simp [List.replicate_succ, eventTrace, transitionEvent, ih]

/-- C7: the transitions derived from the collision matrix for a fixed
pair across consecutive frames, with the overlap status false for m
frames, true for k consecutive frames, then false for p frames, are
exactly one ENTER on the first overlapping frame, STAY on the following
k-1 overlapping frames, one EXIT on the first non-overlapping frame
after, and no event elsewhere — in particular no duplicate ENTER while
the overlap is continuous.  (`transitionEvent` is the transition chain
of `_checkCollisions`; `eventTrace` feeds it the per-frame statuses
through the stored previous flag exactly as the matrix does.) -/
theorem collision_events_enter_stay_exit (m k p : ℕ) (hk : 1 ≤ k) (hp : 1 ≤ p) :
    eventTrace false (List.replicate m false ++ List.replicate k true ++ List.replicate p false) =
      List.replicate m TransitionEvent.nothing ++ [TransitionEvent.enter] ++
      List.replicate (k - 1) TransitionEvent.stay ++ [TransitionEvent.exitEv] ++
      List.replicate (p - 1) TransitionEvent.nothing := by
  obtain ⟨k', rfl⟩ : ∃ k', k = k' + 1 := ⟨k - 1, by omega⟩
  obtain ⟨p', rfl⟩ : ∃ p', p = p' + 1 := ⟨p - 1, by omega⟩
  have e1 : eventTrace false (List.replicate p' false) =
      List.replicate p' TransitionEvent.nothing := by
    simpa [eventTrace] using eventTrace_false_run p' []
  rw [List.append_assoc, eventTrace_false_run, List.replicate_succ, List.cons_append]
  show List.replicate m TransitionEvent.nothing ++
    (TransitionEvent.enter ::
      eventTrace true (List.replicate k' true ++ List.replicate (p' + 1) false)) = _
  rw [eventTrace_true_run, List.replicate_succ]
  show List.replicate m TransitionEvent.nothing ++
    (TransitionEvent.enter :: (List.replicate k' TransitionEvent.stay ++
      (TransitionEvent.exitEv :: eventTrace false (List.replicate p' false)))) = _
  rw [e1]
  simp

/-- C7 witness: m = 2, k = 3, p = 2. -/
theorem collision_events_enter_stay_exit_witness :
    1 ≤ 3 ∧ 1 ≤ 2 ∧
    eventTrace false (List.replicate 2 false ++ List.replicate 3 true ++ List.replicate 2 false) =
      List.replicate 2 TransitionEvent.nothing ++ [TransitionEvent.enter] ++
      List.replicate (3 - 1) TransitionEvent.stay ++ [TransitionEvent.exitEv] ++
      List.replicate (2 - 1) TransitionEvent.nothing :=
  ⟨by norm_num, by norm_num,
   collision_events_enter_stay_exit 2 3 2 (by norm_num) (by norm_num)⟩

/-- C5: for overlapping dynamic bodies with positive masses and distinct
positions on which the dynamic resolver applies its impulse
(`velocityAlongNormal <= 0`), total momentum `massA*velA + massB*velB`
is identical component-wise before and after `_resolveCollisionDynamic`
(exact arithmetic): the impulse is added to A's momentum and subtracted
from B's, and the separation step moves only positions. -/
theorem dynamic_impulse_conserves_momentum (a b : Body)
    (hma : 0 < a.mass) (hmb : 0 < b.mass)
    (hpos : a.position ≠ b.position)
    (hcol : _checkCollision a (.body b) = true)
    (hvan : dot
      ⟨a.velocity.x - b.velocity.x, a.velocity.y - b.velocity.y, a.velocity.z - b.velocity.z⟩
      (Vec3.normalize ⟨b.position.x - a.position.x, b.position.y - a.position.y,
        b.position.z - a.position.z⟩) ≤ 0) :
    a.mass * (resolveDynamicPair a b).1.velocity.x + b.mass * (resolveDynamicPair a b).2.velocity.x
      = a.mass * a.velocity.x + b.mass * b.velocity.x ∧
    a.mass * (resolveDynamicPair a b).1.velocity.y + b.mass * (resolveDynamicPair a b).2.velocity.y
      = a.mass * a.velocity.y + b.mass * b.velocity.y ∧
    a.mass * (resolveDynamicPair a b).1.velocity.z + b.mass * (resolveDynamicPair a b).2.velocity.z
      = a.mass * a.velocity.z + b.mass * b.velocity.z := by
  have hma' : a.mass ≠ 0 := ne_of_gt hma
  have hmb' : b.mass ≠ 0 := ne_of_gt hmb
  simp only [resolveDynamicPair]
  rw [if_neg (not_lt.mpr hvan)]
  rcases hax : selectAxis _ with _ | _ | _ <;>
    refine ⟨?_, ?_, ?_⟩ <;> field_simp <;> ring

theorem c5_norm_eval :
    Vec3.normalize ⟨c5BodyB.position.x - c5BodyA.position.x,
      c5BodyB.position.y - c5BodyA.position.y,
      c5BodyB.position.z - c5BodyA.position.z⟩ = ⟨1, 0, 0⟩ := by
  have h : (⟨c5BodyB.position.x - c5BodyA.position.x,
      c5BodyB.position.y - c5BodyA.position.y,
      c5BodyB.position.z - c5BodyA.position.z⟩ : Vec3) = ⟨1, 0, 0⟩ := by
    simp only [c5BodyA, c5BodyB, mkBody]
    norm_num
  rw [h]
  have hd : dot ⟨1, 0, 0⟩ ⟨1, 0, 0⟩ = 1 := by norm_num [dot]
  rw [Vec3.normalize, hd]
  have hs : ratSqrt 1 = some 1 := by
    rw [ratSqrt]
    norm_num
  rw [hs]
  norm_num

/-- C5 witness: masses 2 and 3, A moving away from B along -x (the
source's sign convention applies the impulse exactly then). -/
theorem dynamic_impulse_conserves_momentum_witness :
    (0 < c5BodyA.mass ∧ 0 < c5BodyB.mass ∧ c5BodyA.position ≠ c5BodyB.position ∧
     _checkCollision c5BodyA (.body c5BodyB) = true ∧
     dot ⟨c5BodyA.velocity.x - c5BodyB.velocity.x, c5BodyA.velocity.y - c5BodyB.velocity.y,
        c5BodyA.velocity.z - c5BodyB.velocity.z⟩
       (Vec3.normalize ⟨c5BodyB.position.x - c5BodyA.position.x,
        c5BodyB.position.y - c5BodyA.position.y,
        c5BodyB.position.z - c5BodyA.position.z⟩) ≤ 0) ∧
    (c5BodyA.mass * (resolveDynamicPair c5BodyA c5BodyB).1.velocity.x +
       c5BodyB.mass * (resolveDynamicPair c5BodyA c5BodyB).2.velocity.x
      = c5BodyA.mass * c5BodyA.velocity.x + c5BodyB.mass * c5BodyB.velocity.x) := by
  have h1 : (0:ℚ) < c5BodyA.mass := by norm_num [c5BodyA, mkBody]
  have h2 : (0:ℚ) < c5BodyB.mass := by norm_num [c5BodyB, mkBody]
  have h3 : c5BodyA.position ≠ c5BodyB.position := by
    simp [c5BodyA, c5BodyB, mkBody]
  have h4 : _checkCollision c5BodyA (.body c5BodyB) = true := by
    simp only [_checkCollision, c5BodyA, c5BodyB, mkBody, Other.shape,
      Other.position, Other.dimensions]
    norm_num
  have h5 : dot ⟨c5BodyA.velocity.x - c5BodyB.velocity.x, c5BodyA.velocity.y - c5BodyB.velocity.y,
        c5BodyA.velocity.z - c5BodyB.velocity.z⟩
       (Vec3.normalize ⟨c5BodyB.position.x - c5BodyA.position.x,
        c5BodyB.position.y - c5BodyA.position.y,
        c5BodyB.position.z - c5BodyA.position.z⟩) ≤ 0 := by
    rw [c5_norm_eval]
    norm_num [dot, c5BodyA, c5BodyB, mkBody]
  exact ⟨⟨h1, h2, h3, h4, h5⟩,
    (dynamic_impulse_conserves_momentum c5BodyA c5BodyB h1 h2 h3 h4 h5).1⟩

theorem integrateBody_isStatic (g : Vec3) (dt : ℚ) (b : Body) :
    (integrateBody g dt b).isStatic = b.isStatic := by
  rw [integrateBody]; split <;> rfl

theorem integrateBody_dyn (g : Vec3) (dt : ℚ) (b : Body) (hst : b.isStatic = false) :
    integrateBody g dt b = { b with
      position := ⟨b.position.x + (b.velocity.x + (b.acceleration.x + g.x) * dt) * dt,
                   b.position.y + (b.velocity.y + (b.acceleration.y + g.y) * dt) * dt,
                   b.position.z + (b.velocity.z + (b.acceleration.z + g.z) * dt) * dt⟩
      velocity := ⟨b.velocity.x + (b.acceleration.x + g.x) * dt,
                   b.velocity.y + (b.acceleration.y + g.y) * dt,
                   b.velocity.z + (b.acceleration.z + g.z) * dt⟩
      acceleration := ⟨0, 0, 0⟩ } := by
  rw [integrateBody, if_neg (by simp [hst])]

theorem checkCollisions_single (s : PhysicsSystem) (b : Body)
    (hb : s.bodies = [b]) (hc : s.colliders = []) (hst : b.isStatic = false) :
    _checkCollisions s = some ⟨s, []⟩ := by
  simp only [_checkCollisions, hb, hc, List.length_cons, List.length_nil, List.range_succ,
    List.range_zero, List.nil_append, optFold, outerStep, List.getElem?_cons_zero, hst,
    Bool.false_eq_true, if_false, bodyPairStep, eq_self_iff_true, if_true]

theorem update_singleBody (g : Vec3) (b : Body) (hst : b.isStatic = false) (dt : ℚ)
    (hdt : 1/10000 ≤ dt) :
    update (singleBodySys g b) dt = some (singleBodySys g (integrateBody g (dt * 1) b), []) := by
  simp only [update, singleBodySys]
  rw [if_neg (not_lt.mpr (by linarith))]
  rw [List.map_cons, List.map_nil]
  rw [checkCollisions_single _ (integrateBody g (dt * 1) b) rfl rfl
    (by rw [integrateBody_isStatic]; exact hst)]

theorem updateN_singleBody_closed (g : Vec3) (dt : ℚ) (hdt : 1/10000 ≤ dt) (n : ℕ) :
    ∀ b : Body, b.isStatic = false → b.acceleration = ⟨0, 0, 0⟩ →
    updateN dt n (singleBodySys g b) = some (singleBodySys g
      { b with
        velocity := ⟨b.velocity.x + n * g.x * dt, b.velocity.y + n * g.y * dt,
          b.velocity.z + n * g.z * dt⟩
        position := ⟨b.position.x + n * b.velocity.x * dt + (n * (n + 1) / 2) * g.x * dt^2,
          b.position.y + n * b.velocity.y * dt + (n * (n + 1) / 2) * g.y * dt^2,
          b.position.z + n * b.velocity.z * dt + (n * (n + 1) / 2) * g.z * dt^2⟩ }) := by
  induction n with
  | zero =>
    intro b hst hacc
    simp only [updateN, Nat.cast_zero]
    norm_num
  | succ n ih =>
    intro b hst hacc
    rw [updateN, update_singleBody g b hst dt hdt]
    show updateN dt n (singleBodySys g (integrateBody g (dt * 1) b)) = _
    rw [ih (integrateBody g (dt * 1) b)
      (by rw [integrateBody_isStatic]; exact hst)
      (by rw [integrateBody_dyn g _ b hst])]
    rw [integrateBody_dyn g (dt * 1) b hst, hacc]
    simp only [singleBodySys, Option.some.injEq, PhysicsSystem.mk.injEq, List.cons.injEq,
      List.nil_eq, and_true, true_and, Body.mk.injEq, Vec3.mk.injEq]
    norm_num
    refine ⟨⟨?_, ?_, ?_⟩, ?_, ?_, ?_⟩ <;> ring

/-- C4: for a single non-static body with zero initial velocity and
acceleration, no other bodies or colliders, timeScale 1 and fixed
dt >= 1e-4, after n `update(dt)` calls the velocity is `g*dt*n` and the
position is `p0 + g*dt^2*n(n+1)/2` in each component (g the configured
gravity): semi-implicit Euler, velocity updated before position,
acceleration reset each step. -/
theorem free_fall_semi_implicit_closed_form (g : Vec3) (b : Body)
    (hst : b.isStatic = false) (hvel : b.velocity = ⟨0, 0, 0⟩)
    (hacc : b.acceleration = ⟨0, 0, 0⟩) (dt : ℚ) (hdt : 1/10000 ≤ dt) (n : ℕ) :
    updateN dt n (singleBodySys g b) = some (singleBodySys g
      { b with
        velocity := ⟨g.x * dt * n, g.y * dt * n, g.z * dt * n⟩
        position := ⟨b.position.x + g.x * dt^2 * (n * (n + 1) / 2),
          b.position.y + g.y * dt^2 * (n * (n + 1) / 2),
          b.position.z + g.z * dt^2 * (n * (n + 1) / 2)⟩ }) := by
  rw [updateN_singleBody_closed g dt hdt n b hst hacc, hvel]
  simp only [Option.some.injEq, singleBodySys, PhysicsSystem.mk.injEq, List.cons.injEq,
    List.nil_eq, and_true, true_and, Body.mk.injEq, Vec3.mk.injEq]
  norm_num
  refine ⟨⟨?_, ?_, ?_⟩, ?_, ?_, ?_⟩ <;> ring

/-- C4 witness: gravity (0,-10,0), dt = 1/60, n = 2. -/
theorem free_fall_semi_implicit_closed_form_witness :
    c4Body.isStatic = false ∧ c4Body.velocity = ⟨0, 0, 0⟩ ∧
    c4Body.acceleration = ⟨0, 0, 0⟩ ∧ (1/10000 : ℚ) ≤ 1/60 ∧
    updateN (1/60) 2 (singleBodySys ⟨0, -10, 0⟩ c4Body) = some (singleBodySys ⟨0, -10, 0⟩
      { c4Body with
        velocity := ⟨(0:ℚ) * (1/60) * (2:ℕ), (-10:ℚ) * (1/60) * (2:ℕ), (0:ℚ) * (1/60) * (2:ℕ)⟩
        position := ⟨c4Body.position.x + 0 * (1/60)^2 * ((2:ℕ) * ((2:ℕ) + 1) / 2),
          c4Body.position.y + (-10) * (1/60)^2 * ((2:ℕ) * ((2:ℕ) + 1) / 2),
          c4Body.position.z + 0 * (1/60)^2 * ((2:ℕ) * ((2:ℕ) + 1) / 2)⟩ }) :=
  ⟨rfl, rfl, rfl, by norm_num,
   free_fall_semi_implicit_closed_form ⟨0, -10, 0⟩ c4Body rfl rfl rfl (1/60) (by norm_num) 2⟩

theorem toDigitsCore_append (fuel : ℕ) : ∀ (n : ℕ) (l : List Char),
    Nat.toDigitsCore 10 fuel n l = Nat.toDigitsCore 10 fuel n [] ++ l := by
  induction fuel with
  | zero => intro n l; rfl
  | succ f ih =>
    intro n l
    simp only [Nat.toDigitsCore]
    by_cases h : n / 10 = 0
    · simp [h]
    · rw [if_neg h, if_neg h, ih (n / 10) [Nat.digitChar (n % 10)],
        ih (n / 10) (Nat.digitChar (n % 10) :: l), List.append_assoc]
      rfl

theorem decodeDigits_append_singleton (l : List Char) (c : Char) :
    decodeDigits (l ++ [c]) = 10 * decodeDigits l + digitVal c := by
  simp [decodeDigits, List.foldl_append]

theorem digitVal_digitChar_mod (n : ℕ) : digitVal (Nat.digitChar (n % 10)) = n % 10 := by
  have h : ∀ m : Fin 10, digitVal (Nat.digitChar m.val) = m.val := by decide
  exact h ⟨n % 10, Nat.mod_lt _ (by norm_num)⟩

theorem decodeDigits_toDigitsCore (n : ℕ) : ∀ fuel, n < fuel →
    decodeDigits (Nat.toDigitsCore 10 fuel n []) = n := by
  induction n using Nat.strong_induction_on with
  | _ n ih =>
    intro fuel hf
    match fuel with
    | 0 => omega
    | f + 1 =>
      simp only [Nat.toDigitsCore]
      by_cases h : n / 10 = 0
      · rw [if_pos h]
        have hn : n < 10 := (Nat.div_eq_zero_iff (by norm_num)).mp h
        have : decodeDigits [Nat.digitChar (n % 10)] = digitVal (Nat.digitChar (n % 10)) := by
          simp [decodeDigits]
        rw [this, digitVal_digitChar_mod, Nat.mod_eq_of_lt hn]
      · rw [if_neg h, toDigitsCore_append, decodeDigits_append_singleton,
          digitVal_digitChar_mod]
        have hpos : 0 < n := by
          rcases Nat.eq_zero_or_pos n with h0 | h0
          · subst h0; simp at h
          · exact h0
        have hlt : n / 10 < n := Nat.div_lt_self hpos (by norm_num)
        rw [ih (n / 10) hlt f (by omega)]
        exact Nat.div_add_mod n 10

theorem decodeDigits_repr (n : ℕ) : decodeDigits (Nat.repr n).data = n := by
  show decodeDigits ((Nat.toDigits 10 n).asString).data = n
  show decodeDigits (Nat.toDigitsCore 10 (n + 1) n []) = n
  exact decodeDigits_toDigitsCore n (n + 1) (Nat.lt_succ_self n)

theorem repr_injective : Function.Injective Nat.repr := by
  intro a b h
  have := congrArg (fun s => decodeDigits s.data) h
  simpa [decodeDigits_repr] using this

theorem genId_injective (tag : String) : Function.Injective (genId tag) := by
  intro a b h
  unfold genId at h
  have hd := congrArg String.data h
  rw [String.data_append, String.data_append] at hd
  exact repr_injective (String.ext (List.append_cancel_left hd))

theorem genId_ne_empty (tag : String) (c : Char) (cs : List Char)
    (htag : tag.data = c :: cs) (k : ℕ) : genId tag k ≠ "" := by
  intro h
  have hd := congrArg String.data h
  rw [genId, String.data_append, htag] at hd
  simp at hd

theorem idsSpec_nodup (tag : String) (n : ℕ) : (idsSpec tag n).Nodup :=
  (List.nodup_range n).map (genId_injective tag)

theorem idsSpec_snoc (tag : String) (n : ℕ) :
    idsSpec tag (n + 1) = idsSpec tag n ++ [genId tag n] := by
  simp [idsSpec, List.range_succ]

theorem runOps_id_shape (ops : List RegOp) :
    ∀ s : PhysicsSystem, (∀ op ∈ ops, op.noIdSupplied = true) →
    s.bodies.map Body.id = idsSpec "body_" s.bodies.length →
    s.colliders.map Collider.id = idsSpec "collider_" s.colliders.length →
    (runOps ops s).bodies.map Body.id = idsSpec "body_" (runOps ops s).bodies.length ∧
    (runOps ops s).colliders.map Collider.id =
      idsSpec "collider_" (runOps ops s).colliders.length := by
  induction ops with
  | nil => intro s _ hb hc; exact ⟨hb, hc⟩
  | cons op rest ih =>
    intro s hid hb hc
    have hop : op.noIdSupplied = true := hid op (List.mem_cons_self op rest)
    have hrest : ∀ o ∈ rest, RegOp.noIdSupplied o = true :=
      fun o ho => hid o (List.mem_cons_of_mem op ho)
    rw [runOps]
    refine ih (applyRegOp s op) hrest ?_ ?_
    · cases op with
      | addB b =>
        have hbid : b.id = "" := by simpa [RegOp.noIdSupplied] using hop
        simp only [applyRegOp, addBody, hbid, eq_self_iff_true, if_true, List.map_append,
          List.map_cons, List.map_nil, List.length_append, List.length_cons,
          List.length_nil, hb]
        rw [show ("body_" ++ Nat.repr s.bodies.length) = genId "body_" s.bodies.length from rfl,
          ← idsSpec_snoc]
      | createB o =>
        have hbid : o.id = none ∨ o.id = some "" := by
          rcases ho : o.id with _ | v
          · exact Or.inl rfl
          · right
            rw [RegOp.noIdSupplied, ho] at hop
            simpa using hop
        have hsid : strOr o.id ("body_" ++ Nat.repr s.bodies.length) =
            genId "body_" s.bodies.length := by
          rcases hbid with h | h <;> simp [strOr, h, genId]
        simp only [applyRegOp, createBody, addBody, hsid]
        rw [if_neg (genId_ne_empty "body_" 'b' ['o', 'd', 'y', '_'] rfl s.bodies.length)]
        simp only [List.map_append, List.map_cons, List.map_nil, List.length_append,
          List.length_cons, List.length_nil, hb]
        rw [← idsSpec_snoc]
      | addC c =>
        simpa [applyRegOp, addCollider] using hb
      | createC o =>
        simpa [applyRegOp, createCollider, addCollider] using hb
    · cases op with
      | addB b =>
        simpa [applyRegOp, addBody] using hc
      | createB o =>
        simpa [applyRegOp, createBody, addBody] using hc
      | addC c =>
        have hcid : c.id = "" := by simpa [RegOp.noIdSupplied] using hop
        simp only [applyRegOp, addCollider, hcid, eq_self_iff_true, if_true, List.map_append,
          List.map_cons, List.map_nil, List.length_append, List.length_cons,
          List.length_nil, hc]
        rw [show ("collider_" ++ Nat.repr s.colliders.length) =
          genId "collider_" s.colliders.length from rfl, ← idsSpec_snoc]
      | createC o =>
        have hcid : o.id = none ∨ o.id = some "" := by
          rcases ho : o.id with _ | v
          · exact Or.inl rfl
          · right
            rw [RegOp.noIdSupplied, ho] at hop
            simpa using hop
        have hsid : strOr o.id ("collider_" ++ Nat.repr s.colliders.length) =
            genId "collider_" s.colliders.length := by
          rcases hcid with h | h <;> simp [strOr, h, genId]
        simp only [applyRegOp, createCollider, addCollider, hsid]
        rw [if_neg (genId_ne_empty "collider_" 'c'
          ['o', 'l', 'l', 'i', 'd', 'e', 'r', '_'] rfl s.colliders.length)]
        simp only [List.map_append, List.map_cons, List.map_nil, List.length_append,
          List.length_cons, List.length_nil, hc]
        rw [← idsSpec_snoc]

/-- C2 (amended): id uniqueness is guaranteed only for registration
sequences WITHOUT `removeBody`: any sequence of
addBody/createBody/addCollider/createCollider calls starting from an
empty system in which the caller never supplies an id produces
pairwise-distinct body ids and pairwise-distinct collider ids (the ids
are exactly `body_0 … body_{n-1}` / `collider_0 … collider_{m-1}`).
After a removal the length-based generator can re-issue a live id (see
the counterexample). -/
theorem generated_ids_unique_without_removal (ops : List RegOp) (s0 : PhysicsSystem)
    (hid : ∀ op ∈ ops, op.noIdSupplied = true)
    (hb0 : s0.bodies = []) (hc0 : s0.colliders = []) :
    ((runOps ops s0).bodies.map Body.id).Nodup ∧
    ((runOps ops s0).colliders.map Collider.id).Nodup := by
  have h := runOps_id_shape ops s0 hid (by simp [hb0, idsSpec]) (by simp [hc0, idsSpec])
  exact ⟨h.1 ▸ idsSpec_nodup "body_" _, h.2 ▸ idsSpec_nodup "collider_" _⟩

/-- C2 amended witness: five id-less registrations through all four
entry points. -/
theorem generated_ids_unique_without_removal_witness :
    (∀ op ∈ c2ops, op.noIdSupplied = true) ∧ emptySys.bodies = [] ∧ emptySys.colliders = [] ∧
    ((runOps c2ops emptySys).bodies.map Body.id).Nodup ∧
    ((runOps c2ops emptySys).colliders.map Collider.id).Nodup :=
  ⟨by decide, rfl, rfl,
   (generated_ids_unique_without_removal c2ops emptySys (by decide) rfl rfl).1,
   (generated_ids_unique_without_removal c2ops emptySys (by decide) rfl rfl).2⟩

theorem getRow_eq_none_of_not_mem (k : String) (m : CollisionMatrix)
    (h : k ∉ m.map Prod.fst) : CollisionMatrix.getRow k m = none := by
  induction m with
  | nil => rfl
  | cons hd tl ih =>
    rw [CollisionMatrix.getRow]
    rw [List.map_cons, List.mem_cons] at h
    push_neg at h
    rw [if_neg (fun he => h.1 he.symm)]
    exact ih h.2

theorem delRow_sublist (k : String) (m : CollisionMatrix) :
    (CollisionMatrix.delRow k m).Sublist m := by
  induction m with
  | nil => exact List.Sublist.refl _
  | cons hd tl ih =>
    rw [CollisionMatrix.delRow]
    split
    · exact List.sublist_cons_self hd tl
    · exact List.Sublist.cons₂ hd ih

theorem getRow_delRow_self (k : String) (m : CollisionMatrix)
    (h : (m.map Prod.fst).Nodup) :
    CollisionMatrix.getRow k (CollisionMatrix.delRow k m) = none := by
  induction m with
  | nil => rfl
  | cons hd tl ih =>
    rw [List.map_cons, List.nodup_cons] at h
    rw [CollisionMatrix.delRow]
    split
    · next he =>
      subst he
      apply getRow_eq_none_of_not_mem
      exact h.1
    · next he =>
      rw [CollisionMatrix.getRow, if_neg he]
      exact ih h.2

theorem getEntry_eq_none_of_not_mem (k : String) (row : List (String × Bool))
    (h : k ∉ row.map Prod.fst) : CollisionMatrix.getEntry k row = none := by
  induction row with
  | nil => rfl
  | cons hd tl ih =>
    rw [CollisionMatrix.getEntry]
    rw [List.map_cons, List.mem_cons] at h
    push_neg at h
    rw [if_neg (fun he => h.1 he.symm)]
    exact ih h.2

theorem getEntry_delEntry_self (k : String) (row : List (String × Bool))
    (h : (row.map Prod.fst).Nodup) :
    CollisionMatrix.getEntry k (CollisionMatrix.delEntry k row) = none := by
  induction row with
  | nil => rfl
  | cons hd tl ih =>
    rw [List.map_cons, List.nodup_cons] at h
    rw [CollisionMatrix.delEntry]
    split
    · next he =>
      subst he
      exact getEntry_eq_none_of_not_mem _ _ h.1
    · next he =>
      rw [CollisionMatrix.getEntry, if_neg he]
      exact ih h.2

theorem getRow_delColumn (k i : String) (m : CollisionMatrix) :
    CollisionMatrix.getRow k (CollisionMatrix.delColumn i m) =
      (CollisionMatrix.getRow k m).map (CollisionMatrix.delEntry i) := by
  induction m with
  | nil => rfl
  | cons hd tl ih =>
    rw [CollisionMatrix.delColumn, List.map_cons]
    rw [CollisionMatrix.getRow, CollisionMatrix.getRow]
    by_cases hk : hd.1 = k
    · rw [if_pos hk, if_pos hk]
      rfl
    · rw [if_neg hk, if_neg hk]
      exact ih

/-- C8: `removeBody` on a body present in the collection (with the
collision matrix well-formed, i.e. JS-object unique keys) leaves no
collision-matrix entry keyed by the body's id, neither as a subject row
nor as a column entry of any remaining row; `removeBody` on an absent
body changes nothing. -/
theorem removeBody_purges_matrix (s : PhysicsSystem) (b : Body)
    (hWF : MatrixWF s.collisionMatrix) :
    (b ∈ s.bodies →
       CollisionMatrix.getRow b.id (removeBody s b).collisionMatrix = none ∧
       ∀ r ∈ (removeBody s b).collisionMatrix,
         CollisionMatrix.getEntry b.id r.2 = none) ∧
    (b ∉ s.bodies → removeBody s b = s) := by
  constructor
  · intro hmem
    rw [removeBody, if_pos hmem]
    constructor
    · show CollisionMatrix.getRow b.id
        (CollisionMatrix.delColumn b.id (CollisionMatrix.delRow b.id s.collisionMatrix)) = none
      rw [getRow_delColumn, getRow_delRow_self b.id s.collisionMatrix hWF.1]
      rfl
    · intro r hr
      show CollisionMatrix.getEntry b.id r.2 = none
      simp only [CollisionMatrix.delColumn, List.mem_map] at hr
      obtain ⟨r0, hr0, rfl⟩ := hr
      have hrow : (r0.2.map Prod.fst).Nodup :=
        hWF.2 r0 ((delRow_sublist b.id s.collisionMatrix).mem hr0)
      exact getEntry_delEntry_self b.id r0.2 hrow
  · intro hmem
    rw [removeBody, if_neg hmem]

/-- C8 witness: a matrix holding id "A" as a row key and as column keys,
purged by removing the body with id "A"; removing an absent body is a
no-op. -/
theorem removeBody_purges_matrix_witness :
    MatrixWF sysC8.collisionMatrix ∧ wBodyA ∈ sysC8.bodies ∧ c8Absent ∉ sysC8.bodies ∧
    (CollisionMatrix.getRow wBodyA.id (removeBody sysC8 wBodyA).collisionMatrix = none ∧
     ∀ r ∈ (removeBody sysC8 wBodyA).collisionMatrix,
       CollisionMatrix.getEntry wBodyA.id r.2 = none) ∧
    removeBody sysC8 c8Absent = sysC8 := by
  have hWF : MatrixWF sysC8.collisionMatrix := by decide
  have hmem : wBodyA ∈ sysC8.bodies := by decide
  have habs : c8Absent ∉ sysC8.bodies := by decide
  exact ⟨hWF, hmem, habs,
    (removeBody_purges_matrix sysC8 wBodyA hWF).1 hmem,
    (removeBody_purges_matrix sysC8 c8Absent (by decide)).2 habs⟩

theorem staticsIntact_refl (l : List Body) : StaticsIntact l l :=
  ⟨rfl, fun _ _ h _ => h⟩

theorem staticsIntact_trans (a b c : List Body)
    (h1 : StaticsIntact a b) (h2 : StaticsIntact b c) : StaticsIntact a c :=
  ⟨h1.1.trans h2.1, fun i bo hi hs => h2.2 i bo (h1.2 i bo hi hs) hs⟩

theorem staticsIntact_set (orig cur : List Body) (h : StaticsIntact orig cur)
    (i : ℕ) (b : Body) (hi : ∀ bo, orig[i]? = some bo → bo.isStatic = false) :
    StaticsIntact orig (cur.set i b) := by
  refine ⟨h.1.trans (List.length_set cur i b).symm, fun j bo hj hs => ?_⟩
  by_cases hij : i = j
  · subst hij
    exact absurd hs (by rw [hi bo hj]; simp)
  · rw [List.getElem?_set_ne hij]
    exact h.2 j bo hj hs

theorem handleEnter_snd_some (a : Body) (o : Other) (a' b' : Body)
    (h : _handleCollisionEnter a o = some (a', some b')) :
    o.isStaticJS = false ∧ o.isTriggerJS = false := by
  rw [_handleCollisionEnter] at h
  by_cases hc : (o.isStaticJS || o.isTriggerJS) = true
  · rw [if_pos hc] at h
    simp at h
  · simp only [Bool.or_eq_true, not_or, Bool.not_eq_true] at hc
    exact hc

theorem handleStay_snd_some (a : Body) (o : Other) (a' b' : Body)
    (h : _handleCollisionStay a o = some (a', some b')) :
    o.isStaticJS = false ∧ o.isTriggerJS = false := by
  rw [_handleCollisionStay] at h
  by_cases hc : (o.isStaticJS || o.isTriggerJS) = true
  · rw [if_pos hc] at h
    simp at h
  · simp only [Bool.or_eq_true, not_or, Bool.not_eq_true] at hc
    exact hc

theorem optFold_preserve (P : PassState → Prop) (f : ℕ → PassState → Option PassState)
    (hf : ∀ j st st', P st → f j st = some st' → P st') :
    ∀ (l : List ℕ) (st st' : PassState), P st → optFold f l st = some st' → P st' := by
  intro l
  induction l with
  | nil =>
    intro st st' hP h
    rw [optFold] at h
    cases h
    exact hP
  | cons j rest ih =>
    intro st st' hP h
    rw [optFold] at h
    cases hj : f j st with
    | none => rw [hj] at h; cases h
    | some st1 =>
      rw [hj] at h
      exact ih st1 st' (hf j st st1 hP hj) h

theorem bodyPairStep_preserves (orig : List Body) (i j : ℕ)
    (hi : ∀ bo, orig[i]? = some bo → bo.isStatic = false)
    (st st' : PassState) (hP : StaticsIntact orig st.sys.bodies)
    (hs : bodyPairStep i j st = some st') : StaticsIntact orig st'.sys.bodies := by
  rw [bodyPairStep] at hs
  by_cases hij : i = j
  · rw [if_pos hij] at hs; cases hs; exact hP
  · rw [if_neg hij] at hs
    rcases hA : st.sys.bodies[i]? with _ | bodyA <;> rw [hA] at hs
    · cases hs; exact hP
    · rcases hB : st.sys.bodies[j]? with _ | bodyB <;> rw [hB] at hs
      · cases hs; exact hP
      · dsimp only [] at hs
        rcases htr : transitionEvent
            (CollisionMatrix.getFlag bodyA.id bodyB.id
              (CollisionMatrix.ensureRow bodyA.id st.sys.collisionMatrix))
            (_checkCollision bodyA (.body bodyB)) with _ | _ | _ | _ <;>
          rw [htr] at hs
        · rcases hh : _handleCollisionEnter bodyA (.body bodyB) with _ | ⟨a', ob'⟩ <;>
            rw [hh] at hs
          · cases hs
          · cases ob' with
            | none =>
              cases hs
              exact staticsIntact_set orig _ hP i a' hi
            | some b' =>
              cases hs
              have hstB := (handleEnter_snd_some bodyA (.body bodyB) a' b' hh).1
              refine staticsIntact_set orig _ (staticsIntact_set orig _ hP i a' hi) j b' ?_
              intro bo hbo
              by_cases hbs : bo.isStatic = true
              · have hcur := hP.2 j bo hbo hbs
                rw [hB] at hcur
                cases hcur
                rw [Other.isStaticJS] at hstB
                exact hstB
              · simpa using hbs
        · rcases hh : _handleCollisionStay bodyA (.body bodyB) with _ | ⟨a', ob'⟩ <;>
            rw [hh] at hs
          · cases hs
          · cases ob' with
            | none =>
              cases hs
              exact staticsIntact_set orig _ hP i a' hi
            | some b' =>
              cases hs
              have hstB := (handleStay_snd_some bodyA (.body bodyB) a' b' hh).1
              refine staticsIntact_set orig _ (staticsIntact_set orig _ hP i a' hi) j b' ?_
              intro bo hbo
              by_cases hbs : bo.isStatic = true
              · have hcur := hP.2 j bo hbo hbs
                rw [hB] at hcur
                cases hcur
                rw [Other.isStaticJS] at hstB
                exact hstB
              · simpa using hbs
        · cases hs; exact hP
        · cases hs; exact hP

theorem colliderStep_preserves (orig : List Body) (i j : ℕ)
    (hi : ∀ bo, orig[i]? = some bo → bo.isStatic = false)
    (st st' : PassState) (hP : StaticsIntact orig st.sys.bodies)
    (hs : colliderStep i j st = some st') : StaticsIntact orig st'.sys.bodies := by
  rw [colliderStep] at hs
  rcases hA : st.sys.bodies[i]? with _ | bodyA <;> rw [hA] at hs
  · cases hs; exact hP
  · rcases hC : st.sys.colliders[j]? with _ | collider <;> rw [hC] at hs
    · cases hs; exact hP
    · dsimp only [] at hs
      rcases htr : transitionEvent
          (CollisionMatrix.getFlag bodyA.id collider.id
            (CollisionMatrix.ensureRow bodyA.id st.sys.collisionMatrix))
          (_checkCollision bodyA (.collider collider)) with _ | _ | _ | _ <;>
        rw [htr] at hs
      · by_cases htg : collider.isTrigger = true <;>
          simp only [htg, if_true, if_false, Bool.false_eq_true] at hs
        · cases hs; exact hP
        · rcases hh : _handleCollisionEnter bodyA (.collider collider) with _ | ⟨a', ob'⟩ <;>
            rw [hh] at hs
          · cases hs
          · cases hs
            exact staticsIntact_set orig _ hP i a' hi
      · by_cases htg : collider.isTrigger = true <;>
          simp only [htg, if_true, if_false, Bool.false_eq_true] at hs
        · cases hs; exact hP
        · rcases hh : _handleCollisionStay bodyA (.collider collider) with _ | ⟨a', ob'⟩ <;>
            rw [hh] at hs
          · cases hs
          · cases hs
            exact staticsIntact_set orig _ hP i a' hi
      · by_cases htg : collider.isTrigger = true <;>
          simp only [htg, if_true, if_false, Bool.false_eq_true] at hs <;>
          (cases hs; exact hP)
      · cases hs; exact hP

theorem outerStep_preserves (orig : List Body) (nB nC i : ℕ)
    (st st' : PassState) (hP : StaticsIntact orig st.sys.bodies)
    (hs : outerStep nB nC i st = some st') : StaticsIntact orig st'.sys.bodies := by
  rw [outerStep] at hs
  rcases hA : st.sys.bodies[i]? with _ | bodyA <;> rw [hA] at hs
  · cases hs; exact hP
  · by_cases hst : bodyA.isStatic = true <;>
      simp only [hst, if_true, if_false, Bool.false_eq_true] at hs
    · cases hs; exact hP
    · have hi : ∀ bo, orig[i]? = some bo → bo.isStatic = false := by
        intro bo hbo
        by_cases hbs : bo.isStatic = true
        · have hcur := hP.2 i bo hbo hbs
          rw [hA] at hcur
          cases hcur
          exact absurd hbs hst
        · simpa using hbs
      rcases hmid : optFold (bodyPairStep i) (List.range nB) st with _ | st1 <;>
        rw [hmid] at hs
      · cases hs
      · have hP1 : StaticsIntact orig st1.sys.bodies :=
          optFold_preserve (fun s => StaticsIntact orig s.sys.bodies) (bodyPairStep i)
            (fun jj s s' hp hstep => bodyPairStep_preserves orig i jj hi s s' hp hstep)
            (List.range nB) st st1 hP hmid
        exact optFold_preserve (fun s => StaticsIntact orig s.sys.bodies) (colliderStep i)
          (fun jj s s' hp hstep => colliderStep_preserves orig i jj hi s s' hp hstep)
          (List.range nC) st1 st' hP1 hs

theorem checkCollisions_preserves (s : PhysicsSystem) (st' : PassState)
    (hs : _checkCollisions s = some st') : StaticsIntact s.bodies st'.sys.bodies := by
  rw [_checkCollisions] at hs
  exact optFold_preserve (fun t => StaticsIntact s.bodies t.sys.bodies)
    (outerStep s.bodies.length s.colliders.length)
    (fun i t t' hp hstep => outerStep_preserves s.bodies _ _ i t t' hp hstep)
    (List.range s.bodies.length) ⟨s, []⟩ st' (staticsIntact_refl s.bodies) hs

theorem integrate_staticsIntact (g : Vec3) (dt : ℚ) (l : List Body) :
    StaticsIntact l (l.map (integrateBody g dt)) := by
  refine ⟨(List.length_map l _).symm, fun i b hi hs => ?_⟩
  rw [List.getElem?_map, hi]
  show some (integrateBody g dt b) = some b
  rw [integrateBody, if_pos hs]

theorem update_preserves_statics (s : PhysicsSystem) (dt : ℚ) (s' : PhysicsSystem)
    (log : List CallEvent) (h : update s dt = some (s', log)) :
    StaticsIntact s.bodies s'.bodies := by
  rw [update] at h
  split at h
  · cases h; exact staticsIntact_refl _
  · dsimp only [] at h
    rcases hc : _checkCollisions
        { s with bodies := s.bodies.map (integrateBody s.gravity (dt * s.timeScale)) }
        with _ | st1 <;> rw [hc] at h
    · cases h
    · cases h
      exact staticsIntact_trans _ _ _
        (integrate_staticsIntact s.gravity (dt * s.timeScale) s.bodies)
        (checkCollisions_preserves _ st1 hc)

theorem updateSeq_preserves_statics : ∀ (dts : List ℚ) (s s' : PhysicsSystem),
    updateSeq dts s = some s' → StaticsIntact s.bodies s'.bodies := by
  intro dts
  induction dts with
  | nil =>
    intro s s' h
    rw [updateSeq] at h
    cases h
    exact staticsIntact_refl _
  | cons dt rest ih =>
    intro s s' h
    rw [updateSeq] at h
    rcases hu : update s dt with _ | ⟨s1, log⟩ <;> rw [hu] at h
    · cases h
    · exact staticsIntact_trans _ _ _ (update_preserves_statics s dt s1 log hu) (ih s1 s' h)

/-- C6: a body with `isStatic = true` is bit-for-bit unchanged by any
sequence of `update` calls, whatever other bodies and colliders are
present: integration skips static bodies, the outer collision loop
skips static subjects, the static resolver mutates only its dynamic
first argument, and the dynamic resolver only runs against non-static
bodies.  (The theorem concludes from `StaticsIntact`, which keeps the
whole body record; position and velocity equality is what the claim
names.) -/
theorem static_bodies_never_move (dts : List ℚ) (s s' : PhysicsSystem)
    (h : updateSeq dts s = some s') (i : ℕ) (b : Body)
    (hb : s.bodies[i]? = some b) (hstat : b.isStatic = true) :
    ∃ b', s'.bodies[i]? = some b' ∧ b'.position = b.position ∧ b'.velocity = b.velocity :=
  ⟨b, (updateSeq_preserves_statics dts s s' h).2 i b hb hstat, rfl, rfl⟩

/-- C6 witness: one `update(1)` of a system holding a single static
body returns the state unchanged. -/
theorem static_bodies_never_move_witness :
    updateSeq [1] sysC6 = some sysC6 ∧ sysC6.bodies[0]? = some c6Static ∧
    c6Static.isStatic = true ∧
    (∃ b', sysC6.bodies[0]? = some b' ∧ b'.position = c6Static.position ∧
      b'.velocity = c6Static.velocity) := by
  have hup : update sysC6 1 = some (sysC6, []) := by
    rw [update]
    dsimp only []
    rw [if_neg (by norm_num [show sysC6.timeScale = 1 from rfl])]
    rfl
  have hseq : updateSeq [1] sysC6 = some sysC6 := by
    rw [updateSeq, hup]
    rfl
  exact ⟨hseq, rfl, rfl,
    static_bodies_never_move [1] sysC6 sysC6 hseq 0 c6Static rfl rfl⟩

theorem addBody_snd_keeps_physical_fields (s : PhysicsSystem) (b : Body) :
    (addBody s b).2.mass = b.mass ∧ (addBody s b).2.restitution = b.restitution ∧
    (addBody s b).2.friction = b.friction := by
  simp only [addBody]
  split <;> exact ⟨rfl, rfl, rfl⟩

theorem createBody_snd_fields (s : PhysicsSystem) (o : BodyOptions) :
    (createBody s o).2.mass = numOr o.mass 1 ∧
    (createBody s o).2.restitution = numOr o.restitution (3/10) ∧
    (createBody s o).2.friction = numOr o.friction (5/10) := by
  simp only [createBody]
  exact addBody_snd_keeps_physical_fields s _

theorem numOr_some_zero (d : ℚ) : numOr (some 0) d = d := by simp [numOr]

theorem numOr_ne_zero (v : Option ℚ) (d : ℚ) (hd : d ≠ 0) : numOr v d ≠ 0 := by
  cases v with
  | none => simpa [numOr]
  | some q =>
    simp only [numOr]
    split
    · exact hd
    · assumption

/-- C10: `createBody` substitutes the documented default for any falsy
supplied option, not only for absent ones (`mass: 0` becomes 1.0,
`restitution: 0` becomes 0.3, `friction: 0` becomes 0.5, `id: ""` gets
the generated id), and the `PhysicsSystem` constructor replaces
`timeScale: 0` by 1.0; hence no body created through `createBody` has
restitution 0 or friction 0. -/
theorem createBody_replaces_falsy_options (s : PhysicsSystem) (o : BodyOptions)
    (so : SystemOptions) :
    (createBody s { o with mass := some 0 }).2.mass = 1 ∧
    (createBody s { o with restitution := some 0 }).2.restitution = 3/10 ∧
    (createBody s { o with friction := some 0 }).2.friction = 1/2 ∧
    (createBody s { o with id := some "" }).2.id = "body_" ++ Nat.repr s.bodies.length ∧
    (PhysicsSystem.create { so with timeScale := some 0 }).timeScale = 1 ∧
    (createBody s o).2.restitution ≠ 0 ∧
    (createBody s o).2.friction ≠ 0 := by
  refine ⟨?_, ?_, ?_, ?_, ?_, ?_, ?_⟩
  · rw [(createBody_snd_fields s _).1]; exact numOr_some_zero 1
  · rw [(createBody_snd_fields s _).2.1]; exact numOr_some_zero (3/10)
  · rw [(createBody_snd_fields s _).2.2, numOr_some_zero]; norm_num
  · simp [createBody, addBody, strOr]
  · simp [PhysicsSystem.create, numOr]
  · rw [(createBody_snd_fields s _).2.1]; exact numOr_ne_zero _ _ (by norm_num)
  · rw [(createBody_snd_fields s _).2.2]; exact numOr_ne_zero _ _ (by norm_num)

/-- Counterexample to claim C3: with per-axis penetrations x = 1, y = 1,
z = 2 (x tied with y, both minimal), the claim predicts the x axis; the
code's strict comparison `overlap.x < overlap.y` fails on the tie, the
y branch is taken, the body is pushed along y and x is untouched. -/
theorem tie_x_y_resolves_along_y :
    selectAxis (overlapVec c3Body.position c3Body.dimensions c3Static.position
      c3Static.dimensions) = Axis.y ∧
    selectAxis (overlapVec c3Body.position c3Body.dimensions c3Static.position
      c3Static.dimensions) ≠ Axis.x ∧
    (_resolveCollision c3Body (.body c3Static)).position = ⟨0, -1, 0⟩ := by
  have hov : overlapVec c3Body.position c3Body.dimensions c3Static.position
      c3Static.dimensions = ⟨1, 1, 2⟩ := by
    simp only [overlapVec, c3Body, c3Static, mkBody]
    norm_num
  have hsel : selectAxis (⟨1, 1, 2⟩ : Vec3) = Axis.y := by
    simp only [selectAxis]
    norm_num
  refine ⟨hov ▸ hsel, by rw [hov, hsel]; simp, ?_⟩
  simp only [_resolveCollision, Other.position, Other.dimensions, Other.frictionPosJS, hov, hsel]
  simp only [c3Body, c3Static, mkBody]
  norm_num

/-- C3 (amended): in static collision resolution the resolution axis is
an axis of minimum per-axis penetration, but ties are broken toward the
LATER axis in the fixed order x, y, z — the strict comparisons
`overlap.x < overlap.y && overlap.x < overlap.z` mean x is selected only
when strictly smallest and z wins a y/z tie: the selected axis is
exactly the last axis attaining the minimum (`lastMinAxis`). -/
theorem selectAxis_minimal_late_ties (o : Vec3) :
    ((o.along (selectAxis o) ≤ o.x ∧ o.along (selectAxis o) ≤ o.y ∧
      o.along (selectAxis o) ≤ o.z) ∧ selectAxis o = lastMinAxis o) := by
  constructor
  · unfold selectAxis
    split_ifs with h1 h2
    · exact ⟨le_refl _, le_of_lt h1.1, le_of_lt h1.2⟩
    · push_neg at h1
      rcases le_or_lt o.y o.x with hyx | hxy
      · exact ⟨hyx, le_refl _, le_of_lt h2⟩
      · have := h1 hxy
        exact ⟨by linarith, le_refl _, le_of_lt h2⟩
    · push_neg at h1 h2
      rcases le_or_lt o.z o.x with hzx | hxz
      · exact ⟨hzx, h2, le_refl _⟩
      · rcases le_or_lt o.y o.x with hyx | hxy
        · exact ⟨by linarith, h2, le_refl _⟩
        · have := h1 hxy
          exact ⟨this, h2, le_refl _⟩
  · unfold selectAxis lastMinAxis
    by_cases h1 : o.x < o.y ∧ o.x < o.z
    · rw [if_pos h1]
      have hz : ¬ (o.z ≤ o.x ∧ o.z ≤ o.y) := by
        rintro ⟨hzx, -⟩; exact absurd h1.2 (not_lt.mpr hzx)
      rw [if_neg hz, if_neg (not_le.mpr h1.1)]
    · rw [if_neg h1]
      push_neg at h1
      by_cases h2 : o.y < o.z
      · rw [if_pos h2]
        have hz : ¬ (o.z ≤ o.x ∧ o.z ≤ o.y) := by
          rintro ⟨-, hzy⟩; exact absurd h2 (not_lt.mpr hzy)
        rw [if_neg hz]
        rcases le_or_lt o.y o.x with hyx | hxy
        · rw [if_pos hyx]
        · have := h1 hxy
          exact absurd h2 (not_lt.mpr (by linarith))
      · rw [if_neg h2]
        push_neg at h2
        have hzx : o.z ≤ o.x := by
          by_cases hxy : o.x < o.y
          · exact h1 hxy
          · exact le_trans h2 (not_lt.mp hxy)
        rw [if_pos ⟨hzx, h2⟩]

/-- C9: for every deltaTime with `deltaTime * timeScale < 1e-4`
(including zero and negative), `update` changes nothing — the state is
returned unchanged and no callback is invoked (empty log). -/
theorem update_small_delta_is_noop (s : PhysicsSystem) (dt : ℚ)
    (h : dt * s.timeScale < 1/10000) :
    update s dt = some (s, []) := by
  unfold update
  rw [if_pos h]

/-- C9 witness: `update(0)` on a concrete system is a no-op. -/
theorem update_small_delta_is_noop_witness :
    (0 : ℚ) * emptySys.timeScale < 1/10000 ∧ update emptySys 0 = some (emptySys, []) :=
  ⟨by norm_num [emptySys], update_small_delta_is_noop emptySys 0 (by norm_num [emptySys])⟩
